import Mathlib

/-!
# Verification of the selenium-tabs tab registry and task scheduler

Shallow embedding of the core of `seleniumtabs` (files `tabs.py`, `browser.py`,
`schedule_tasks.py`).  Window handles are modelled as natural numbers, the
external Selenium driver ("Driver Collaborator") as an explicit state record,
and every fallible Python operation as an `Except`-valued function.  Python
`assert` failures and raised exceptions are constructors of one error type.
-/

namespace SeleniumTabs

/-- Errors raised by the embedded operations.  Each constructor corresponds to
one raise site in the Python source (the spec's error taxonomy groups the two
`SeleniumRequestException` sites as `DeadTabError` / `TabNotFoundError`). -/
inductive Err where
  /-- Exception `SeleniumRequestException("Current window is dead. ...")` in `Tab.switch` -/
  | deadTab
  /-- Exception `SeleniumRequestException("Tab does not exist.")` in `Browser.close_tab` -/
  | tabNotFound
  /-- Exception `SeleniumOpenTabException` in `TabManager.get_blank_tab` -/
  | tabOpen
  /-- Exception `ValueError("Task period must be positive")` in `schedule_task` -/
  | invalidPeriod
  /-- Exception `ValueError("sleep_time must be positive")` in `execute_tasks` -/
  | invalidSleep
  /-- a Python `assert` statement failing (in `Browser._remove_tab`) -/
  | assertFailed
  /-- a raw driver call with no current window (e.g. `driver.close()` after
  the focused window is gone) -/
  | noWindow
deriving DecidableEq, Repr

/-- The external Driver Collaborator's observable state: the list of open
window handles (`driver.window_handles`, insertion order) and the focused
window (`driver.current_window_handle`; `none` models the state after the
focused window has been closed, where the call raises). -/
structure Driver where
  handles : List Nat
  current : Option Nat
deriving DecidableEq, Repr

namespace Tab

/-- Embedding of `Tab.is_alive` (tabs.py): `self.tab_handle in self._session.window_handles`. -/
def is_alive (d : Driver) (h : Nat) : Bool :=
  d.handles.contains h

/-- Embedding of `Tab.is_active` (tabs.py): `self._session.current_window_handle == self.tab_handle`,
with any driver error (no current window) caught and turned into `False`. -/
def is_active (d : Driver) (h : Nat) : Bool :=
  match d.current with
  | some c => c == h
  | none => false

/-- Embedding of `Tab.switch` (tabs.py lines 168-183):
if already active, return `False`; if not alive, raise
`SeleniumRequestException` ("dead window"); otherwise switch the driver to
this handle and return `True`. -/
def switch (d : Driver) (h : Nat) : Except Err (Driver × Bool) :=
  if is_active d h then
    .ok (d, false)
  else if !is_alive d h then
    .error .deadTab
  else
    .ok ({ d with current := some h }, true)

end Tab

/-- The data a `Tab` object stores besides its handle: `start_url`
(set to `None` by `TabManager.create`, assigned later by `open_new_tab`)
and `full_screen`. -/
structure TabInfo where
  start_url : Option String
  full_screen : Bool
deriving DecidableEq, Repr

/-- The registry `TabManager._all_tabs : OrderedDict`, embedded as an
association list in insertion order. -/
abbrev Registry := List (Nat × TabInfo)

namespace TabManager

/-- Python `OrderedDict.update({k: v})` semantics: if the key is present, replace its value in
place (the key keeps its original position); otherwise append at the end. -/
def odUpdate (m : Registry) (k : Nat) (v : TabInfo) : Registry :=
  if m.any (fun p => p.1 == k) then
    m.map (fun p => if p.1 == k then (k, v) else p)
  else
    m ++ [(k, v)]

/-- Embedding of `TabManager.add`: `self._all_tabs.update({tab.tab_handle: tab})`. -/
def add (m : Registry) (handle : Nat) (t : TabInfo) : Registry :=
  odUpdate m handle t

/-- Embedding of `TabManager.create`: build a fresh `Tab` (with `start_url=None`) and `add`
it; returns the updated registry together with the created tab's data. -/
def create (m : Registry) (tab_handle : Nat) (full_screen : Bool) :
    Registry × TabInfo :=
  let tab : TabInfo := ⟨none, full_screen⟩
  (add m tab_handle tab, tab)

/-- Embedding of `TabManager.exist` / `tab in self`: membership of the handle among the
registry keys (`Tab.__eq__` compares handles only). -/
def exist (m : Registry) (h : Nat) : Bool :=
  m.any (fun p => p.1 == h)

/-- Embedding of `TabManager.remove`: `self._all_tabs.pop(tab.tab_handle, None)` —
drop the entry with that key, keeping the order of the rest. -/
def remove (m : Registry) (h : Nat) : Registry :=
  m.filter (fun p => p.1 != h)

/-- Embedding of the `TabManager` key order / the spec interface `listTabs()`: the handles in insertion
order. -/
def listTabs (m : Registry) : List Nat :=
  m.map Prod.fst

/-- Embedding of `TabManager.first_tab`: `self[0] if self._all_tabs else None`. -/
def first_tab (m : Registry) : Option (Nat × TabInfo) :=
  m.head?

/-- Embedding of `TabManager.last_tab`: `self[-1] if self._all_tabs else None`. -/
def last_tab (m : Registry) : Option (Nat × TabInfo) :=
  m.getLast?

end TabManager

/-- Events observable at the driver/registry boundary while closing a tab,
listed in the order the corresponding Python calls are issued. -/
inductive Ev where
  /-- Event for `driver.switch_to.window(h)` (issued from inside `Tab.switch`) -/
  | focus (h : Nat)
  /-- Embedding of `TabManager.remove`: the bookkeeping entry for `h` leaves the registry -/
  | removeEntry (h : Nat)
  /-- Event for `driver.close()`: window `h` (the focused one) is physically closed -/
  | physClose (h : Nat)
deriving DecidableEq, Repr

/-- Test for focus events, used to state trace properties: the non-focus
events of a close trace are the registry removal and the physical close. -/
def Ev.isFocus : Ev → Bool
  | .focus _ => true
  | .removeEntry _ => false
  | .physClose _ => false

/-- The sub-trace of registry/close events: a close trace with the focus
switches stripped out. -/
def nonFocusEvents (evs : List Ev) : List Ev :=
  evs.filter (fun e => !(Ev.isFocus e))

/-- Combined state of a `Browser`: the driver plus the tab registry. -/
structure BState where
  driver : Driver
  tabs : Registry
deriving DecidableEq, Repr

/-- Embedding of `Tab.switch` together with the focus event it issues (exactly when it
actually calls `switch_to_window_handle`). -/
def switchEv (d : Driver) (h : Nat) : Except Err (Driver × List Ev) :=
  match Tab.switch d h with
  | .ok (d', true) => .ok (d', [.focus h])
  | .ok (d', false) => .ok (d', [])
  | .error e => .error e

/-- Embedding of `Session.close_driver` = `driver.close()`: closes the currently focused
window; afterwards there is no focused window until the next switch. -/
def close_driver (d : Driver) : Except Err (Driver × List Ev) :=
  match d.current with
  | none => .error .noWindow
  | some c => .ok (⟨d.handles.filter (fun x => x != c), none⟩, [.physClose c])

namespace TabManager

/-- Embedding of `TabManager.switch_to_last_tab` (tabs.py lines 679-685): no-op returning
`False` when there is no last tab or it is dead or unknown; otherwise
`Tab.switch` it and return `True`.  (`Tab.switch` cannot raise here because
liveness was just checked; the error branch is unreachable.) -/
def switch_to_last_tab (d : Driver) (m : Registry) : Driver × List Ev × Bool :=
  match last_tab m with
  | some (h, _) =>
    if Tab.is_alive d h && exist m h then
      match switchEv d h with
      | .ok (d', evs) => (d', evs, true)
      | .error _ => (d, [], false)
    else (d, [], false)
  | none => (d, [], false)

/-- New handles produced by the blank-window request:
`set(driver.window_handles) - windows_before`, as the sub-list of the after
handles that were not present before. -/
def newHandles (before after : List Nat) : List Nat :=
  after.filter (fun h => !before.contains h)

/-- Embedding of `TabManager.get_blank_tab` (tabs.py lines 591-608).  The effect of the
`window.open` script is that the driver's handle list becomes
`afterHandles`.  `enum` is the order in which Python's `set` difference is
enumerated by `list(new_window)` — unspecified by the language, hence a
parameter; the admissible orders are exactly the permutations of
`newHandles`.  Raises `SeleniumOpenTabException` when the difference is
empty; otherwise switches the driver to `list(new_window)[0]`, registers the
tab, and switches to it. -/
def get_blank_tab (s : BState) (afterHandles enum : List Nat)
    (full_screen : Bool) : Except Err (BState × Nat) :=
  let d1 : Driver := { s.driver with handles := afterHandles }
  match enum with
  | [] => .error .tabOpen
  | nw :: _ =>
    let d2 : Driver := { d1 with current := some nw }
    let (tabs2, _) := create s.tabs nw full_screen
    match switchEv d2 nw with
    | .error e => .error e
    | .ok (d3, _) => .ok (⟨d3, tabs2⟩, nw)

/-- Embedding of `TabManager.open_new_tab` (tabs.py lines 610-623): get a blank tab,
assign its `start_url`, switch to it and load the page.  The page load is an
external effect: `loadOk = false` models `Tab.open` raising
`SeleniumOpenTabException`. -/
def open_new_tab (s : BState) (afterHandles enum : List Nat) (url : String)
    (full_screen : Bool) (loadOk : Bool) : Except Err (BState × Nat) :=
  match get_blank_tab s afterHandles enum full_screen with
  | .error e => .error e
  | .ok (s1, nw) =>
    let tabs2 := s1.tabs.map
      (fun p => if p.1 == nw then (p.1, { p.2 with start_url := some url }) else p)
    if loadOk then .ok (⟨s1.driver, tabs2⟩, nw) else .error .tabOpen

end TabManager

namespace Browser

/-- Embedding of `Browser._remove_tab` (browser.py lines 148-171): assert the tab is alive
and registered; focus it; remove the registry entry; physically close the
focused window; re-assert; then focus the new last tab if any remains. -/
def _remove_tab (s : BState) (h : Nat) : Except Err (BState × List Ev) :=
  if !(Tab.is_alive s.driver h) then .error .assertFailed
  else if !(TabManager.exist s.tabs h) then .error .assertFailed
  else
    match switchEv s.driver h with
    | .error e => .error e
    | .ok (d1, e1) =>
      let tabs1 := TabManager.remove s.tabs h
      match close_driver d1 with
      | .error e => .error e
      | .ok (d2, e2) =>
        if Tab.is_alive d2 h then .error .assertFailed
        else if TabManager.exist tabs1 h then .error .assertFailed
        else
          match TabManager.last_tab tabs1 with
          | some (lh, _) =>
            match switchEv d2 lh with
            | .error e => .error e
            | .ok (d3, e3) =>
              .ok (⟨d3, tabs1⟩, e1 ++ [.removeEntry h] ++ e2 ++ e3)
          | none => .ok (⟨d2, tabs1⟩, e1 ++ [.removeEntry h] ++ e2)

/-- Embedding of `Browser.close_tab` (browser.py lines 102-121): if the tab is registered,
switch to it, run `_remove_tab`, wait, and switch to the (new) last tab;
otherwise raise `SeleniumRequestException("Tab does not exist.")`.
(`humanized_wait(1)` only spends time and is not an observable event.) -/
def close_tab (s : BState) (h : Nat) : Except Err (BState × List Ev) :=
  if TabManager.exist s.tabs h then
    match switchEv s.driver h with
    | .error e => .error e
    | .ok (d1, e1) =>
      match _remove_tab ⟨d1, s.tabs⟩ h with
      | .error e => .error e
      | .ok (s2, e2) =>
        let t := TabManager.switch_to_last_tab s2.driver s2.tabs
        .ok (⟨t.1, s2.tabs⟩, e1 ++ e2 ++ t.2.1)
  else .error .tabNotFound

end Browser

/-- Lookup in a Python `dict` embedded as an association list. -/
def dictGet {α β : Type} [BEq α] (l : List (α × β)) (k : α) : Option β :=
  (l.find? (fun p => p.1 == k)).map Prod.snd

/-- Assignment `d[k] = v` on a Python `dict` embedded as an association list: replace in
place when the key is present, append otherwise. -/
def dictUpd {α β : Type} [BEq α] (l : List (α × β)) (k : α) (v : β) :
    List (α × β) :=
  if l.any (fun p => p.1 == k) then
    l.map (fun p => if p.1 == k then (k, v) else p)
  else l ++ [(k, v)]

/-- One job in the external `schedule` module's global job list
(`schedule.jobs`), as created by `schedule.every(period).seconds.do(...)`.
`id` is the job's object identity (jobs created later get larger ids);
`next_run` is the next due time; `fails` records whether this job's
underlying callback — or the `tab.switch()` preceding it — raises on every
invocation (the `wrapper` closure in `schedule_task` catches and logs that). -/
structure SJob where
  id : Nat
  name : String
  period : Int
  next_run : Int
  fails : Bool
deriving DecidableEq, Repr

/-- The state of `BrowserTaskScheduler` plus the external `schedule` module's
job list that it drives. -/
structure SchedState where
  /-- List `schedule.jobs`: the module-level job list, in registration order -/
  schedJobs : List SJob
  /-- Dictionary `self._tasks`: task name ↦ job reference kept for cancellation -/
  tasks : List (String × Nat)
  /-- Dictionary `self._task_status` -/
  task_status : List (String × Bool)
  /-- Dictionary `self._tab_tasks`: tab ↦ names of tasks scheduled on it -/
  tab_tasks : List (Nat × List String)
  /-- Flag `self._running` -/
  running : Bool
  /-- allocator for job identities -/
  nextId : Nat
deriving DecidableEq, Repr

namespace BrowserTaskScheduler

/-- Embedding of `BrowserTaskScheduler.schedule_task` (schedule_tasks.py lines 31-70):
raise `ValueError` when `period <= 0`; otherwise wrap the callback, append a
new job to `schedule.jobs` due at `now + period`, and record the references
(`_tasks[name] = job`, `_task_status[name] = True`, `_tab_tasks[tab] += [name]`). -/
def schedule_task (s : SchedState) (tab : Nat) (taskName : String)
    (taskFails : Bool) (period : Int) (now : Int) : Except Err SchedState :=
  if period ≤ 0 then .error .invalidPeriod
  else
    let job : SJob := ⟨s.nextId, taskName, period, now + period, taskFails⟩
    let tabList := (dictGet s.tab_tasks tab).getD []
    .ok { schedJobs := s.schedJobs ++ [job]
        , tasks := dictUpd s.tasks taskName s.nextId
        , task_status := dictUpd s.task_status taskName true
        , tab_tasks := dictUpd s.tab_tasks tab (tabList ++ [taskName])
        , running := s.running
        , nextId := s.nextId + 1 }

/-- Embedding of `BrowserTaskScheduler.cancel_task` (schedule_tasks.py lines 72-93):
remove the referenced job from `schedule.jobs`, drop the name from `_tasks`,
mark the status `False`, and erase the name from each tab's task list. -/
def cancel_task (s : SchedState) (taskName : String) : SchedState × Bool :=
  match dictGet s.tasks taskName with
  | some jid =>
    ({ s with
        schedJobs := s.schedJobs.filter (fun j => j.id != jid)
      , tasks := s.tasks.filter (fun p => p.1 != taskName)
      , task_status := dictUpd s.task_status taskName false
      , tab_tasks := s.tab_tasks.map (fun p => (p.1, p.2.erase taskName)) },
     true)
  | none => (s, false)

/-- Outcome of the body of the `wrapper` closure before its `except` clause
(`tab.switch(); task(tab, ...)`): `false` when it raises. -/
def rawDispatchOk (j : SJob) : Bool := !j.fails

/-- Embedding of `schedule.run_pending()` at time `now`, with every job function being a
`wrapper` closure: dispatch every job whose `next_run` has arrived, advancing
its `next_run` by its period.  The wrapper catches any error from the focus
switch or the callback, so `run_pending` itself never raises; the raw
outcomes are returned (they are only logged) alongside the dispatched job
ids.  Dispatch order within a tick is the job-list order. -/
def run_pending (now : Int) (s : SchedState) :
    SchedState × List (Nat × Bool) :=
  let due := s.schedJobs.filter (fun j => j.next_run ≤ now)
  let jobs' := s.schedJobs.map (fun j =>
    if j.next_run ≤ now then { j with next_run := now + j.period } else j)
  ({ s with schedJobs := jobs' }, due.map (fun j => (j.id, rawDispatchOk j)))

/-- Result of an `execute_tasks` call: returned normally, or raised
`ValueError` on the `sleep_time` validation. -/
inductive RunResult where
  | ok
  | valueError
deriving DecidableEq, Repr

/-- Truthiness of `max_time` in `if max_time and ...`: `None` and `0` are
falsy, so those values impose no time budget. -/
def maxTimeTruthy : Option Int → Bool
  | none => false
  | some m => m != 0

/-- The `while self._running:` loop of `execute_tasks`.  `stopSig k` models a
cooperative `stop()` call taking effect before iteration `k`'s running
check; `interruptSig k` models a `KeyboardInterrupt` delivered during
iteration `k`'s sleep (caught by the `except KeyboardInterrupt` handler).
Time starts at `0` (= `start_time`) and advances by `sleep_time` per
iteration; the time-budget check `time.time() - start_time > max_time` runs
after the sleep.  `fuel` bounds how many iterations are modelled (the Python
loop may run forever).  Returns the final state and the per-iteration lists
of dispatched `(job id, raw outcome)` pairs. -/
def schedLoop (max_time : Option Int) (sleep_time : Int)
    (stopSig interruptSig : Nat → Bool) (fuel k : Nat) (now : Int)
    (s : SchedState) : SchedState × List (List (Nat × Bool)) :=
  match fuel with
  | 0 => (s, [])
  | fuel' + 1 =>
    let s0 := if stopSig k then { s with running := false } else s
    if !s0.running then (s0, [])
    else
      let (s1, batch) := run_pending now s0
      if interruptSig k then (s1, [batch])
      else
        let now' := now + sleep_time
        if maxTimeTruthy max_time && decide ((max_time.getD 0) < now') then
          (s1, [batch])
        else
          let (s2, tr) :=
            schedLoop max_time sleep_time stopSig interruptSig fuel' (k + 1) now' s1
          (s2, batch :: tr)

/-- The state `execute_tasks` enters its loop with: `self._running = True`. -/
def startState (s : SchedState) : SchedState := { s with running := true }

/-- Embedding of `BrowserTaskScheduler.execute_tasks` (schedule_tasks.py lines 126-160):
validate `sleep_time` (raising `ValueError` before touching any state), set
`_running = True`, record `start_time`, run the polling loop, and clear
`_running` in the `finally` block — on every exit path (normal break on the
time budget, external `stop()`, `KeyboardInterrupt`, loop end). -/
def execute_tasks (s : SchedState) (max_time : Option Int) (sleep_time : Int)
    (stopSig interruptSig : Nat → Bool) (fuel : Nat) :
    SchedState × List (List (Nat × Bool)) × RunResult :=
  if sleep_time ≤ 0 then (s, [], .valueError)
  else
    let (s1, tr) :=
      schedLoop max_time sleep_time stopSig interruptSig fuel 0 0 (startState s)
    ({ s1 with running := false }, tr, .ok)

/-- Embedding of `BrowserTaskScheduler.stop`: set `_running = False`. -/
def stop (s : SchedState) : SchedState := { s with running := false }

/-- The same scheduler state with every job's callback replaced by one that
never raises; used to state that job failures are unobservable to the loop. -/
def clearFails (s : SchedState) : SchedState :=
  { s with schedJobs := s.schedJobs.map (fun j => { j with fails := false }) }

end BrowserTaskScheduler

/-- The registry contents after a sequence of `Browser.open` calls on a fresh
browser with no intervening removals: each call ends by registering the newly
discovered handle via `TabManager.create`. -/
def openTabSeq (hs : List Nat) : Registry :=
  hs.foldl (fun m h => (TabManager.create m h true).1) []

end SeleniumTabs

namespace SeleniumTabs

/- A few sanity examples exercising the registry on concrete data. -/

example :
    Browser.close_tab ⟨⟨[1, 2], some 2⟩, [(1, ⟨none, true⟩), (2, ⟨none, true⟩)]⟩ 2 =
      .ok (⟨⟨[1], some 1⟩, [(1, ⟨none, true⟩)]⟩,
        [.removeEntry 2, .physClose 2, .focus 1]) := rfl

example :
    TabManager.get_blank_tab ⟨⟨[1], some 1⟩, [(1, ⟨none, true⟩)]⟩ [1, 2, 3] [2, 3] true =
      .ok (⟨⟨[1, 2, 3], some 2⟩, [(1, ⟨none, true⟩), (2, ⟨none, true⟩)]⟩, 2) := rfl

example : TabManager.create [] 5 true = ([(5, ⟨none, true⟩)], ⟨none, true⟩) := by
  decide

example :
    TabManager.odUpdate [(1, ⟨none, true⟩), (2, ⟨none, true⟩)] 1 ⟨none, false⟩ =
      [(1, ⟨none, false⟩), (2, ⟨none, true⟩)] := by
  decide

example : Tab.switch ⟨[1, 2], some 2⟩ 2 = .ok (⟨[1, 2], some 2⟩, false) := rfl

example : Tab.switch ⟨[1, 2], some 2⟩ 3 = .error .deadTab := rfl

example : Tab.switch ⟨[1, 2], some 2⟩ 1 = .ok (⟨[1, 2], some 1⟩, true) := rfl

end SeleniumTabs

namespace SeleniumTabs

/-! ## General lemmas -/

theorem is_active_current (d : Driver) (h : Nat)
    (ha : Tab.is_active d h = true) : d.current = some h := by
  unfold Tab.is_active at ha
  cases hc : d.current with
  | none => rw [hc] at ha; cases ha
  | some c => rw [hc] at ha; simp at ha; rw [ha]

theorem find?_map_updKey {α β : Type} [BEq α] [LawfulBEq α] (k : α) (v : β) :
    ∀ l : List (α × β), l.any (fun p => p.1 == k) = true →
      (l.map (fun p => if p.1 == k then (k, v) else p)).find?
        (fun p => p.1 == k) = some (k, v) := by
  intro l
  induction l with
  | nil => intro hc; cases hc
  | cons p t ih =>
    intro hc
    by_cases hp : (p.1 == k) = true
    · simp [hp]
    · have hp' : (p.1 == k) = false := by
        rw [Bool.not_eq_true] at hp; exact hp
      have hct : t.any (fun p => p.1 == k) = true := by
        simp only [List.any_cons, hp', Bool.false_or] at hc; exact hc
      rw [List.map_cons, if_neg hp, List.find?_cons_of_neg _ (by simp [hp'])]
      exact ih hct

theorem dictGet_dictUpd {α β : Type} [BEq α] [LawfulBEq α]
    (l : List (α × β)) (k : α) (v : β) :
    dictGet (dictUpd l k v) k = some v := by
  unfold dictGet dictUpd
  by_cases hc : l.any (fun p => p.1 == k) = true
  · rw [if_pos hc, find?_map_updKey k v l hc]
    rfl
  · rw [if_neg hc]
    induction l with
    | nil => simp
    | cons p t ih =>
      simp only [List.any_cons, Bool.or_eq_true, not_or] at hc
      rw [List.cons_append, List.find?_cons_of_neg _ (by simpa using hc.1)]
      exact ih (by simpa using hc.2)

theorem exist_remove (m : Registry) (h : Nat) :
    TabManager.exist (TabManager.remove m h) h = false := by
  unfold TabManager.exist TabManager.remove
  induction m with
  | nil => rfl
  | cons p t ih =>
    by_cases hp : (p.1 == h) = true
    · have hbne : (p.1 != h) = false := by simp [bne, hp]
      rw [List.filter_cons_of_neg (by simp [hbne])]
      exact ih
    · have hp' : (p.1 == h) = false := by
        rw [Bool.not_eq_true] at hp; exact hp
      have hbne : (p.1 != h) = true := by simp [bne, hp']
      rw [List.filter_cons_of_pos (by simp [hbne])]
      simp only [List.any_cons, hp', Bool.false_or]
      exact ih

theorem contains_filter_ne (l : List Nat) (c : Nat) :
    (l.filter (fun x => x != c)).contains c = false := by
  induction l with
  | nil => rfl
  | cons x t ih =>
    by_cases hx : (x == c) = true
    · have hbne : (x != c) = false := by simp [bne, hx]
      rw [List.filter_cons_of_neg (by simp [hbne])]
      exact ih
    · have hx' : (x == c) = false := by
        rw [Bool.not_eq_true] at hx; exact hx
      have hbne : (x != c) = true := by simp [bne, hx']
      have hcx : (c == x) = false := by
        rw [beq_eq_false_iff_ne] at hx' ⊢
        exact fun hcx => hx' hcx.symm
      rw [List.filter_cons_of_pos (by simp [hbne])]
      simp only [List.contains_cons, hcx, Bool.false_or]
      exact ih

theorem odUpdate_of_not_exist (m : Registry) (k : Nat) (v : TabInfo)
    (hx : TabManager.exist m k = false) :
    TabManager.odUpdate m k v = m ++ [(k, v)] := by
  unfold TabManager.odUpdate
  unfold TabManager.exist at hx
  rw [if_neg (by simp [hx])]

theorem odUpdate_of_exist (m : Registry) (k : Nat) (v : TabInfo)
    (hx : TabManager.exist m k = true) :
    TabManager.odUpdate m k v = m.map (fun p => if p.1 == k then (k, v) else p) := by
  unfold TabManager.odUpdate
  unfold TabManager.exist at hx
  rw [if_pos hx]

theorem exist_odUpdate_self (m : Registry) (k : Nat) (v : TabInfo) :
    TabManager.exist (TabManager.odUpdate m k v) k = true := by
  unfold TabManager.exist TabManager.odUpdate
  by_cases hc : m.any (fun p => p.1 == k) = true
  · rw [if_pos hc]
    rcases List.any_eq_true.mp hc with ⟨p, hmem, hk⟩
    refine List.any_eq_true.mpr ⟨(k, v), List.mem_map.mpr ⟨p, hmem, by simp [hk]⟩, by simp⟩
  · rw [if_neg hc]
    simp [List.any_append]

end SeleniumTabs

namespace SeleniumTabs

/-! ## Claim C3: the `Tab.switch` contract -/

/-- C3 (confirmed).  For every driver state and handle, `Tab.switch` returns
`False` and leaves the driver (hence the focus) unchanged when the tab is
already active — so two consecutive `switch()` calls on an active tab both
return `False` on the same unchanged state; it raises the dead-tab error
(`SeleniumRequestException`, the spec's `DeadTabError`) when the tab is not
already active and its handle is not in the live-handle set; and otherwise it
focuses the handle and returns `True`. -/
theorem C3_switch_contract (d : Driver) (h : Nat) :
    (Tab.is_active d h = true → Tab.switch d h = .ok (d, false)) ∧
    (Tab.is_active d h = false → Tab.is_alive d h = false →
      Tab.switch d h = .error .deadTab) ∧
    (Tab.is_active d h = false → Tab.is_alive d h = true →
      Tab.switch d h = .ok ({ d with current := some h }, true)) := by
  refine ⟨fun ha => ?_, fun ha hl => ?_, fun ha hl => ?_⟩
  · simp [Tab.switch, ha]
  · simp [Tab.switch, ha, hl]
  · simp [Tab.switch, ha, hl]

/-- Witness for C3 at concrete states: live handles `[1, 2]` with `1`
focused — switching to `1` is a `False` no-op, to a dead `3` raises, to the
live inactive `2` focuses and returns `True`. -/
theorem C3_switch_contract_witness :
    Tab.switch ⟨[1, 2], some 1⟩ 1 = .ok (⟨[1, 2], some 1⟩, false) ∧
    Tab.switch ⟨[1, 2], some 1⟩ 3 = .error .deadTab ∧
    Tab.switch ⟨[1, 2], some 1⟩ 2 =
      .ok ({ Driver.mk [1, 2] (some 1) with current := some 2 }, true) :=
  ⟨(C3_switch_contract ⟨[1, 2], some 1⟩ 1).1 (by decide),
   (C3_switch_contract ⟨[1, 2], some 1⟩ 3).2.1 (by decide) (by decide),
   (C3_switch_contract ⟨[1, 2], some 1⟩ 2).2.2 (by decide) (by decide)⟩

/-! ## Claim C4: `TabManager.create` on a duplicate handle -/

/-- C4 (refuted).  `TabManager.create` never raises: called with a handle
already in the registry it silently replaces the stored Tab in place (here
the entry for handle `1`, previously a full-screen tab, is replaced by the
fresh non-full-screen blank tab), instead of failing with a duplicate-handle
error as the claim states. -/
theorem C4_counterexample :
    TabManager.create [(1, ⟨none, true⟩)] 1 false =
      ([(1, ⟨none, false⟩)], ⟨none, false⟩) ∧
    (⟨none, true⟩ : TabInfo) ≠ ⟨none, false⟩ :=
  ⟨rfl, by decide⟩

/-- C4 (amended).  `create` always succeeds: with a fresh handle it appends
the new entry at the end of the ordered mapping; with an existing handle it
raises no error and silently replaces the stored Tab in place, keeping the
entry's position (no reordering). -/
theorem C4_create_amended (m : Registry) (h : Nat) (fs : Bool) :
    (TabManager.exist m h = false →
      (TabManager.create m h fs).1 = m ++ [(h, ⟨none, fs⟩)]) ∧
    (TabManager.exist m h = true →
      (TabManager.create m h fs).1 =
        m.map (fun p => if p.1 == h then (h, ⟨none, fs⟩) else p)) := by
  constructor
  · intro hx
    unfold TabManager.create TabManager.add
    exact odUpdate_of_not_exist m h _ hx
  · intro hx
    unfold TabManager.create TabManager.add
    exact odUpdate_of_exist m h _ hx

/-- Witness for amended C4: a fresh handle `2` is appended after `1`; the
duplicate handle `1` is replaced in place. -/
theorem C4_create_amended_witness :
    (TabManager.create [(1, ⟨none, true⟩)] 2 true).1 =
      [(1, ⟨none, true⟩), (2, ⟨none, true⟩)] ∧
    (TabManager.create [(1, ⟨none, true⟩)] 1 false).1 =
      [(1, ⟨none, false⟩)] :=
  ⟨(C4_create_amended [(1, ⟨none, true⟩)] 2 true).1 (by decide),
   (C4_create_amended [(1, ⟨none, true⟩)] 1 false).2 (by decide)⟩

/-! ## Claim C8: `schedule_task` period validation -/

/-- C8 (confirmed).  `schedule_task` raises `ValueError` (the spec's
`InvalidPeriodError`) exactly when `period <= 0`; for every positive period
it registers the job (appended to `schedule.jobs`, name recorded in
`_tasks`, `_task_status` and `_tab_tasks`) and raises nothing. -/
theorem C8_schedule_task_period (s : SchedState) (tab : Nat) (n : String)
    (f : Bool) (p : Int) (now : Int) :
    (BrowserTaskScheduler.schedule_task s tab n f p now =
        .error .invalidPeriod ↔ p ≤ 0) ∧
    (0 < p →
      BrowserTaskScheduler.schedule_task s tab n f p now =
        .ok { schedJobs := s.schedJobs ++ [⟨s.nextId, n, p, now + p, f⟩]
            , tasks := dictUpd s.tasks n s.nextId
            , task_status := dictUpd s.task_status n true
            , tab_tasks := dictUpd s.tab_tasks tab
                (((dictGet s.tab_tasks tab).getD []) ++ [n])
            , running := s.running
            , nextId := s.nextId + 1 }) := by
  unfold BrowserTaskScheduler.schedule_task
  constructor
  · by_cases hp : p ≤ 0 <;> simp [hp]
  · intro hp
    rw [if_neg (by omega)]

/-- Witness for C8: period `0` is rejected; period `2` registers the job. -/
theorem C8_schedule_task_period_witness :
    BrowserTaskScheduler.schedule_task ⟨[], [], [], [], false, 0⟩ 7 "f" false 0 0 =
      .error .invalidPeriod ∧
    BrowserTaskScheduler.schedule_task ⟨[], [], [], [], false, 0⟩ 7 "f" false 2 0 =
      .ok { schedJobs := [] ++ [⟨0, "f", 2, 0 + 2, false⟩]
          , tasks := dictUpd [] "f" 0
          , task_status := dictUpd [] "f" true
          , tab_tasks := dictUpd [] 7 (((dictGet [] 7).getD []) ++ ["f"])
          , running := false
          , nextId := 0 + 1 } :=
  ⟨(C8_schedule_task_period ⟨[], [], [], [], false, 0⟩ 7 "f" false 0 0).1.mpr
      (by decide),
   (C8_schedule_task_period ⟨[], [], [], [], false, 0⟩ 7 "f" false 2 0).2
      (by decide)⟩

/-! ## Claim C10: `execute_tasks` poll-interval validation -/

/-- C10 (confirmed).  For every `sleep_time <= 0`, `execute_tasks` raises
`ValueError` before doing anything else: the scheduler state is returned
exactly as it was (in particular `_running` is not set) and no job is
dispatched (empty trace). -/
theorem C10_execute_tasks_sleep_validation (s : SchedState)
    (mt : Option Int) (st : Int) (stopSig interruptSig : Nat → Bool)
    (fuel : Nat) (hst : st ≤ 0) :
    BrowserTaskScheduler.execute_tasks s mt st stopSig interruptSig fuel =
      (s, [], .valueError) := by
  unfold BrowserTaskScheduler.execute_tasks
  rw [if_pos hst]

/-- Witness for C10 at `sleep_time = 0` on a state with a registered job:
the call raises `ValueError`, the state (including the untouched `running`
flag and the job table) is unchanged, and nothing was dispatched. -/
theorem C10_execute_tasks_sleep_validation_witness :
    BrowserTaskScheduler.execute_tasks
        ⟨[⟨0, "f", 1, 1, false⟩], [("f", 0)], [("f", true)], [(7, ["f"])], false, 1⟩
        none 0 (Function.const Nat false) (Function.const Nat false) 5 =
      (⟨[⟨0, "f", 1, 1, false⟩], [("f", 0)], [("f", true)], [(7, ["f"])], false, 1⟩,
        [], .valueError) :=
  C10_execute_tasks_sleep_validation
    ⟨[⟨0, "f", 1, 1, false⟩], [("f", 0)], [("f", true)], [(7, ["f"])], false, 1⟩
    none 0 (Function.const Nat false) (Function.const Nat false) 5 (by decide)

end SeleniumTabs

namespace SeleniumTabs

/-! ## Claim C9: registry ordering invariant -/

theorem listTabs_append_single (m : Registry) (k : Nat) (v : TabInfo) :
    TabManager.listTabs (m ++ [(k, v)]) = TabManager.listTabs m ++ [k] := by
  simp [TabManager.listTabs]

theorem exist_append_single (m : Registry) (k : Nat) (v : TabInfo) (h : Nat) :
    TabManager.exist (m ++ [(k, v)]) h = (TabManager.exist m h || (k == h)) := by
  simp [TabManager.exist, List.any_append]

theorem listTabs_foldl_create :
    ∀ (hs : List Nat) (m : Registry),
      (∀ h ∈ hs, TabManager.exist m h = false) → hs.Nodup →
      TabManager.listTabs
          (hs.foldl (fun m h => (TabManager.create m h true).1) m) =
        TabManager.listTabs m ++ hs := by
  intro hs
  induction hs with
  | nil => intro m _ _; simp
  | cons h t ih =>
    intro m hfresh hnd
    have hx : TabManager.exist m h = false := hfresh h (List.mem_cons_self h t)
    have hstep : (TabManager.create m h true).1 = m ++ [(h, ⟨none, true⟩)] := by
      unfold TabManager.create TabManager.add
      exact odUpdate_of_not_exist m h _ hx
    have hfresh' : ∀ h' ∈ t,
        TabManager.exist (m ++ [(h, (⟨none, true⟩ : TabInfo))]) h' = false := by
      intro h' hh'
      have h1 : TabManager.exist m h' = false :=
        hfresh h' (List.mem_cons_of_mem _ hh')
      have h2 : (h == h') = false := by
        rw [beq_eq_false_iff_ne]
        intro he
        rw [he] at hnd
        exact (List.nodup_cons.mp hnd).1 hh'
      rw [exist_append_single, h1, h2]
      rfl
    rw [List.foldl_cons, hstep,
      ih (m ++ [(h, (⟨none, true⟩ : TabInfo))]) hfresh' (List.Nodup.of_cons hnd),
      listTabs_append_single]
    simp

/-- C9 (confirmed).  Starting from an empty registry, for every sequence of
`openTab` calls (pairwise-distinct fresh handles, no intervening removals)
the registry lists the handles in call order; `first_tab` / `last_tab` are
the tabs of the first and last call; on the empty registry both are `None`. -/
theorem C9_open_order (hs : List Nat) (hnd : hs.Nodup) :
    TabManager.listTabs (openTabSeq hs) = hs ∧
    (TabManager.first_tab (openTabSeq hs)).map Prod.fst = hs.head? ∧
    (TabManager.last_tab (openTabSeq hs)).map Prod.fst = hs.getLast? ∧
    TabManager.first_tab [] = none ∧
    TabManager.last_tab [] = none := by
  have h1 : TabManager.listTabs (openTabSeq hs) = hs := by
    have := listTabs_foldl_create hs [] (fun h _ => rfl) hnd
    simpa [openTabSeq, TabManager.listTabs] using this
  refine ⟨h1, ?_, ?_, rfl, rfl⟩
  · show Option.map Prod.fst (openTabSeq hs).head? = hs.head?
    rw [← List.head?_map]
    show (TabManager.listTabs (openTabSeq hs)).head? = hs.head?
    rw [h1]
  · show Option.map Prod.fst (openTabSeq hs).getLast? = hs.getLast?
    rw [← List.getLast?_map]
    show (TabManager.listTabs (openTabSeq hs)).getLast? = hs.getLast?
    rw [h1]

/-- Witness for C9 with the three-tab sequence `[1, 2, 3]`. -/
theorem C9_open_order_witness :
    TabManager.listTabs (openTabSeq [1, 2, 3]) = [1, 2, 3] ∧
    (TabManager.first_tab (openTabSeq [1, 2, 3])).map Prod.fst =
      [1, 2, 3].head? ∧
    (TabManager.last_tab (openTabSeq [1, 2, 3])).map Prod.fst =
      [1, 2, 3].getLast? ∧
    TabManager.first_tab [] = none ∧
    TabManager.last_tab [] = none :=
  C9_open_order [1, 2, 3] (by decide)

/-! ## Claim C5: re-scheduling under the same task identity -/

/-- C5 (refuted).  Schedule `"f"` every 2s, then re-schedule `"f"` every 3s
(same identity, both at time 0): the first job (id `0`) is *not* replaced in
`schedule.jobs` — only the `_tasks` cancellation reference is overwritten —
and at time 5 the run loop dispatches *both* jobs, the superseded id `0`
included; over four 1-second poll ticks `execute_tasks` dispatches the old
job at tick 2 and the new one at tick 3.  This contradicts the claim that
the previously registered job is never dispatched again. -/
theorem C5_counterexample :
    BrowserTaskScheduler.schedule_task ⟨[], [], [], [], false, 0⟩ 7 "f" false 2 0 =
      .ok ⟨[⟨0, "f", 2, 2, false⟩], [("f", 0)], [("f", true)], [(7, ["f"])],
        false, 1⟩ ∧
    BrowserTaskScheduler.schedule_task
        ⟨[⟨0, "f", 2, 2, false⟩], [("f", 0)], [("f", true)], [(7, ["f"])],
          false, 1⟩ 7 "f" false 3 0 =
      .ok ⟨[⟨0, "f", 2, 2, false⟩, ⟨1, "f", 3, 3, false⟩], [("f", 1)],
        [("f", true)], [(7, ["f", "f"])], false, 2⟩ ∧
    (BrowserTaskScheduler.run_pending 5
        ⟨[⟨0, "f", 2, 2, false⟩, ⟨1, "f", 3, 3, false⟩], [("f", 1)],
          [("f", true)], [(7, ["f", "f"])], false, 2⟩).2.map Prod.fst =
      [0, 1] ∧
    (BrowserTaskScheduler.execute_tasks
        ⟨[⟨0, "f", 2, 2, false⟩, ⟨1, "f", 3, 3, false⟩], [("f", 1)],
          [("f", true)], [(7, ["f", "f"])], false, 2⟩ none 1
        (Function.const Nat false) (Function.const Nat false) 4).2.1 =
      [[], [], [(0, true)], [(1, true)]] :=
  ⟨rfl, rfl, rfl, rfl⟩

theorem schedule_task_ok_inv (s : SchedState) (tab : Nat) (n : String)
    (f : Bool) (p : Int) (now : Int) (s' : SchedState)
    (hok : BrowserTaskScheduler.schedule_task s tab n f p now = .ok s') :
    s' = { schedJobs := s.schedJobs ++ [⟨s.nextId, n, p, now + p, f⟩]
         , tasks := dictUpd s.tasks n s.nextId
         , task_status := dictUpd s.task_status n true
         , tab_tasks := dictUpd s.tab_tasks tab
             (((dictGet s.tab_tasks tab).getD []) ++ [n])
         , running := s.running
         , nextId := s.nextId + 1 } := by
  unfold BrowserTaskScheduler.schedule_task at hok
  by_cases hp : p ≤ 0
  · rw [if_pos hp] at hok; cases hok
  · rw [if_neg hp] at hok
    exact (Except.ok.inj hok).symm

/-- C5 (amended).  Re-scheduling a task under an already-registered identity
does *not* replace the prior job: both the old and the new job remain in
`schedule.jobs`; only the `_tasks` cancellation reference now names the new
job; and whenever the old job's due time has arrived, the run loop's
dispatch step still dispatches the old job's id. -/
theorem C5_reschedule_amended (s : SchedState) (tab : Nat) (n : String)
    (f1 f2 : Bool) (p1 p2 t1 t2 : Int) (s1 s2 : SchedState)
    (h1 : BrowserTaskScheduler.schedule_task s tab n f1 p1 t1 = .ok s1)
    (h2 : BrowserTaskScheduler.schedule_task s1 tab n f2 p2 t2 = .ok s2) :
    (⟨s.nextId, n, p1, t1 + p1, f1⟩ : SJob) ∈ s2.schedJobs ∧
    (⟨s1.nextId, n, p2, t2 + p2, f2⟩ : SJob) ∈ s2.schedJobs ∧
    dictGet s2.tasks n = some s1.nextId ∧
    ∀ now : Int, t1 + p1 ≤ now →
      s.nextId ∈ (BrowserTaskScheduler.run_pending now s2).2.map Prod.fst := by
  have e1 := schedule_task_ok_inv _ _ _ _ _ _ _ h1
  have e2 := schedule_task_ok_inv _ _ _ _ _ _ _ h2
  subst e1
  subst e2
  refine ⟨by simp, by simp, dictGet_dictUpd _ _ _, ?_⟩
  intro now hnow
  unfold BrowserTaskScheduler.run_pending
  simp only [List.map_map]
  refine List.mem_map.mpr ⟨⟨s.nextId, n, p1, t1 + p1, f1⟩, ?_, rfl⟩
  refine List.mem_filter.mpr ⟨by simp, ?_⟩
  simpa using hnow

/-- Witness for amended C5 at the counterexample's inputs: both jobs are
registered, the reference names the new id `1`, and a due check at time 5
dispatches the superseded id `0`. -/
theorem C5_reschedule_amended_witness :
    (⟨0, "f", 2, 2, false⟩ : SJob) ∈
      [(⟨0, "f", 2, 2, false⟩ : SJob), ⟨1, "f", 3, 3, false⟩] ∧
    (⟨1, "f", 3, 3, false⟩ : SJob) ∈
      [(⟨0, "f", 2, 2, false⟩ : SJob), ⟨1, "f", 3, 3, false⟩] ∧
    dictGet [("f", 1)] "f" = some 1 ∧
    0 ∈ (BrowserTaskScheduler.run_pending 5
        ⟨[⟨0, "f", 2, 2, false⟩, ⟨1, "f", 3, 3, false⟩], [("f", 1)],
          [("f", true)], [(7, ["f", "f"])], false, 2⟩).2.map Prod.fst := by
  have h := C5_reschedule_amended ⟨[], [], [], [], false, 0⟩ 7 "f" false false 2 3 0 0
    ⟨[⟨0, "f", 2, 2, false⟩], [("f", 0)], [("f", true)], [(7, ["f"])], false, 1⟩
    ⟨[⟨0, "f", 2, 2, false⟩, ⟨1, "f", 3, 3, false⟩], [("f", 1)], [("f", true)],
      [(7, ["f", "f"])], false, 2⟩ rfl rfl
  exact ⟨h.1, h.2.1, h.2.2.1, h.2.2.2 5 (by decide)⟩

/-! ## Claim C6: the running flag -/

/-- C6 (confirmed).  For every invocation that passes the `sleep_time`
validation, `execute_tasks` hands the loop a state whose `running` flag was
just set to `true` (`startState`), and the state it returns has
`running = false` — whichever way the loop exited (time budget, `stop()`
signal, `KeyboardInterrupt`, or plain loop end), since the clearing is the
`finally` block. -/
theorem C6_running_flag (s : SchedState) (mt : Option Int) (st : Int)
    (stopSig interruptSig : Nat → Bool) (fuel : Nat) (hst : 0 < st) :
    (BrowserTaskScheduler.startState s).running = true ∧
    BrowserTaskScheduler.execute_tasks s mt st stopSig interruptSig fuel =
      ({ (BrowserTaskScheduler.schedLoop mt st stopSig interruptSig fuel 0 0
            (BrowserTaskScheduler.startState s)).1 with running := false },
       (BrowserTaskScheduler.schedLoop mt st stopSig interruptSig fuel 0 0
          (BrowserTaskScheduler.startState s)).2,
       .ok) ∧
    (BrowserTaskScheduler.execute_tasks s mt st stopSig interruptSig
        fuel).1.running = false := by
  have h2 : BrowserTaskScheduler.execute_tasks s mt st stopSig interruptSig fuel =
      ({ (BrowserTaskScheduler.schedLoop mt st stopSig interruptSig fuel 0 0
            (BrowserTaskScheduler.startState s)).1 with running := false },
       (BrowserTaskScheduler.schedLoop mt st stopSig interruptSig fuel 0 0
          (BrowserTaskScheduler.startState s)).2,
       .ok) := by
    unfold BrowserTaskScheduler.execute_tasks
    rw [if_neg (by omega)]
  exact ⟨rfl, h2, by rw [h2]⟩

/-- Witness for C6 on a small state with a registered job, a 2-second budget
and unit poll interval. -/
theorem C6_running_flag_witness :
    (BrowserTaskScheduler.startState
        ⟨[⟨0, "f", 1, 1, false⟩], [("f", 0)], [("f", true)], [(7, ["f"])],
          false, 1⟩).running = true ∧
    BrowserTaskScheduler.execute_tasks
        ⟨[⟨0, "f", 1, 1, false⟩], [("f", 0)], [("f", true)], [(7, ["f"])],
          false, 1⟩ (some 2) 1 (Function.const Nat false) (Function.const Nat false) 5 =
      ({ (BrowserTaskScheduler.schedLoop (some 2) 1 (Function.const Nat false)
            (Function.const Nat false) 5 0 0
            (BrowserTaskScheduler.startState
              ⟨[⟨0, "f", 1, 1, false⟩], [("f", 0)], [("f", true)], [(7, ["f"])],
                false, 1⟩)).1 with running := false },
       (BrowserTaskScheduler.schedLoop (some 2) 1 (Function.const Nat false)
          (Function.const Nat false) 5 0 0
          (BrowserTaskScheduler.startState
            ⟨[⟨0, "f", 1, 1, false⟩], [("f", 0)], [("f", true)], [(7, ["f"])],
              false, 1⟩)).2,
       .ok) ∧
    (BrowserTaskScheduler.execute_tasks
        ⟨[⟨0, "f", 1, 1, false⟩], [("f", 0)], [("f", true)], [(7, ["f"])],
          false, 1⟩ (some 2) 1 (Function.const Nat false) (Function.const Nat false) 5).1.running =
      false :=
  C6_running_flag
    ⟨[⟨0, "f", 1, 1, false⟩], [("f", 0)], [("f", true)], [(7, ["f"])], false, 1⟩
    (some 2) 1 (Function.const Nat false) (Function.const Nat false) 5 (by decide)

end SeleniumTabs

namespace SeleniumTabs

/-! ## Claim C2: fault containment at the dispatch boundary -/

theorem clearFails_running (s : SchedState) (b : Bool) :
    BrowserTaskScheduler.clearFails { s with running := b } =
      { BrowserTaskScheduler.clearFails s with running := b } := rfl

theorem clearFails_running_val (s : SchedState) :
    (BrowserTaskScheduler.clearFails s).running = s.running := rfl

theorem upd_clear_comm (now : Int) (l : List SJob) :
    (l.map (fun j => { j with fails := false })).map
        (fun j => if j.next_run ≤ now then { j with next_run := now + j.period }
          else j) =
      (l.map (fun j => if j.next_run ≤ now then
          { j with next_run := now + j.period } else j)).map
        (fun j => { j with fails := false }) := by
  induction l with
  | nil => rfl
  | cons j t ih =>
    simp only [List.map_cons, List.cons.injEq]
    constructor
    · by_cases hc : j.next_run ≤ now <;> simp [hc]
    · exact ih

theorem due_ids_clear (now : Int) (l : List SJob) :
    ((l.map (fun j => { j with fails := false })).filter
        (fun j => j.next_run ≤ now)).map (fun j => j.id) =
      (l.filter (fun j => j.next_run ≤ now)).map (fun j => j.id) := by
  induction l with
  | nil => rfl
  | cons j t ih =>
    by_cases hc : j.next_run ≤ now
    · simp only [List.map_cons]
      rw [List.filter_cons_of_pos (by simpa using hc),
        List.filter_cons_of_pos (by simpa using hc)]
      simpa using ih
    · simp only [List.map_cons]
      rw [List.filter_cons_of_neg (by simpa using hc),
        List.filter_cons_of_neg (by simpa using hc)]
      exact ih

theorem run_pending_clearFails (now : Int) (s : SchedState) :
    (BrowserTaskScheduler.run_pending now (BrowserTaskScheduler.clearFails s)).1 =
      BrowserTaskScheduler.clearFails
        (BrowserTaskScheduler.run_pending now s).1 ∧
    (BrowserTaskScheduler.run_pending now
        (BrowserTaskScheduler.clearFails s)).2.map Prod.fst =
      (BrowserTaskScheduler.run_pending now s).2.map Prod.fst := by
  unfold BrowserTaskScheduler.run_pending BrowserTaskScheduler.clearFails
  refine ⟨?_, ?_⟩
  · simp only [SchedState.mk.injEq, and_true, true_and]
    exact upd_clear_comm now s.schedJobs
  · simp only [List.map_map]
    have h := due_ids_clear now s.schedJobs
    simpa [Function.comp] using h

theorem schedLoop_succ (mt : Option Int) (st : Int)
    (stopSig interruptSig : Nat → Bool) (fuel k : Nat) (now : Int)
    (s : SchedState) :
    BrowserTaskScheduler.schedLoop mt st stopSig interruptSig (fuel + 1) k now s =
      if !(if stopSig k then { s with running := false } else s).running then
        ((if stopSig k then { s with running := false } else s), [])
      else if interruptSig k then
        ((BrowserTaskScheduler.run_pending now
            (if stopSig k then { s with running := false } else s)).1,
         [(BrowserTaskScheduler.run_pending now
            (if stopSig k then { s with running := false } else s)).2])
      else if BrowserTaskScheduler.maxTimeTruthy mt &&
          decide ((mt.getD 0) < now + st) then
        ((BrowserTaskScheduler.run_pending now
            (if stopSig k then { s with running := false } else s)).1,
         [(BrowserTaskScheduler.run_pending now
            (if stopSig k then { s with running := false } else s)).2])
      else
        ((BrowserTaskScheduler.schedLoop mt st stopSig interruptSig fuel (k + 1)
            (now + st)
            (BrowserTaskScheduler.run_pending now
              (if stopSig k then { s with running := false } else s)).1).1,
         (BrowserTaskScheduler.run_pending now
            (if stopSig k then { s with running := false } else s)).2 ::
          (BrowserTaskScheduler.schedLoop mt st stopSig interruptSig fuel (k + 1)
            (now + st)
            (BrowserTaskScheduler.run_pending now
              (if stopSig k then { s with running := false } else s)).1).2) :=
  rfl

theorem schedLoop_clearFails (mt : Option Int) (st : Int)
    (stopSig interruptSig : Nat → Bool) :
    ∀ (fuel k : Nat) (now : Int) (s : SchedState),
      (BrowserTaskScheduler.schedLoop mt st stopSig interruptSig fuel k now
          (BrowserTaskScheduler.clearFails s)).1 =
        BrowserTaskScheduler.clearFails
          (BrowserTaskScheduler.schedLoop mt st stopSig interruptSig fuel k now
            s).1 ∧
      (BrowserTaskScheduler.schedLoop mt st stopSig interruptSig fuel k now
          (BrowserTaskScheduler.clearFails s)).2.map (List.map Prod.fst) =
        (BrowserTaskScheduler.schedLoop mt st stopSig interruptSig fuel k now
            s).2.map (List.map Prod.fst) := by
  intro fuel
  induction fuel with
  | zero => intro k now s; exact ⟨rfl, rfl⟩
  | succ fuel ih =>
    intro k now s
    rw [schedLoop_succ, schedLoop_succ]
    have hs0 : (if stopSig k then
          { BrowserTaskScheduler.clearFails s with running := false }
        else BrowserTaskScheduler.clearFails s) =
        BrowserTaskScheduler.clearFails
          (if stopSig k then { s with running := false } else s) := by
      by_cases hsg : stopSig k <;> simp [hsg, clearFails_running]
    rw [hs0]
    obtain ⟨hA, hB⟩ :=
      run_pending_clearFails now (if stopSig k then { s with running := false } else s)
    obtain ⟨hIA, hIB⟩ := ih (k + 1) (now + st)
      (BrowserTaskScheduler.run_pending now
        (if stopSig k then { s with running := false } else s)).1
    rw [clearFails_running_val]
    by_cases hr : (if stopSig k then { s with running := false } else s).running
    · simp only [hr, Bool.not_true, Bool.false_eq_true, if_false]
      by_cases hint : interruptSig k
      · simp only [hint, if_true]
        refine ⟨hA, ?_⟩
        simp [hB]
      · simp only [hint, Bool.false_eq_true, if_false]
        by_cases hmax : (BrowserTaskScheduler.maxTimeTruthy mt &&
            decide ((mt.getD 0) < now + st)) = true
        · simp only [hmax, if_true]
          refine ⟨hA, ?_⟩
          simp [hB]
        · simp only [hmax, Bool.false_eq_true, if_false]
          rw [hA]
          refine ⟨hIA, ?_⟩
          simp [hB, hIB]
    · rw [Bool.not_eq_true] at hr
      simp [hr]

/-- C2 (confirmed).  Job failures are invisible to the run loop: for every
scheduler state (however many of its jobs' callbacks — or the focus switches
preceding them — raise on every invocation), `execute_tasks` (a) returns
normally (`.ok`, never a raised error), and (b) produces exactly the same
per-tick dispatch schedule and the same final state (up to thejobs' own
`fails` flags) as the run in which every callback is healthy
(`clearFails`).  Hence a job that raises on every invocation neither stops
the loop nor prevents any other registered job from being dispatched, and
`runTasks` ends only through the time budget, `stop()`, interrupt or fuel —
never through a job failure. -/
theorem C2_fault_containment (s : SchedState) (mt : Option Int) (st : Int)
    (stopSig interruptSig : Nat → Bool) (fuel : Nat) (hst : 0 < st) :
    (BrowserTaskScheduler.execute_tasks s mt st stopSig interruptSig fuel).2.2 =
      .ok ∧
    (BrowserTaskScheduler.execute_tasks (BrowserTaskScheduler.clearFails s) mt
        st stopSig interruptSig fuel).2.1.map (List.map Prod.fst) =
      (BrowserTaskScheduler.execute_tasks s mt st stopSig interruptSig
          fuel).2.1.map (List.map Prod.fst) ∧
    (BrowserTaskScheduler.execute_tasks (BrowserTaskScheduler.clearFails s) mt
        st stopSig interruptSig fuel).1 =
      BrowserTaskScheduler.clearFails
        (BrowserTaskScheduler.execute_tasks s mt st stopSig interruptSig
          fuel).1 := by
  obtain ⟨hA, hB⟩ := schedLoop_clearFails mt st stopSig interruptSig fuel 0 0
    (BrowserTaskScheduler.startState s)
  unfold BrowserTaskScheduler.execute_tasks
  simp only [if_neg (show ¬ st ≤ 0 by omega)]
  refine ⟨trivial, ?_, ?_⟩
  · exact hB
  · show { (BrowserTaskScheduler.schedLoop mt st stopSig interruptSig fuel 0 0
        (BrowserTaskScheduler.startState (BrowserTaskScheduler.clearFails s))).1
          with running := false } =
      BrowserTaskScheduler.clearFails
        { (BrowserTaskScheduler.schedLoop mt st stopSig interruptSig fuel 0 0
            (BrowserTaskScheduler.startState s)).1 with running := false }
    rw [show BrowserTaskScheduler.startState (BrowserTaskScheduler.clearFails s) =
        BrowserTaskScheduler.clearFails (BrowserTaskScheduler.startState s) from rfl,
      hA]
    exact (clearFails_running _ false).symm

/-- Witness for C2: a state with a job `"f"` that raises on every invocation
alongside a healthy job `"g"`, run for three unit poll ticks with no time
budget: the run returns normally, and its dispatch schedule and final state
agree with the all-healthy run. -/
theorem C2_fault_containment_witness :
    (BrowserTaskScheduler.execute_tasks
        ⟨[⟨0, "f", 1, 1, true⟩, ⟨1, "g", 2, 2, false⟩], [("f", 0), ("g", 1)],
          [("f", true), ("g", true)], [(7, ["f", "g"])], false, 2⟩
        none 1 (Function.const Nat false) (Function.const Nat false) 3).2.2 = .ok ∧
    (BrowserTaskScheduler.execute_tasks
        (BrowserTaskScheduler.clearFails
          ⟨[⟨0, "f", 1, 1, true⟩, ⟨1, "g", 2, 2, false⟩], [("f", 0), ("g", 1)],
            [("f", true), ("g", true)], [(7, ["f", "g"])], false, 2⟩)
        none 1 (Function.const Nat false) (Function.const Nat false) 3).2.1.map
        (List.map Prod.fst) =
      (BrowserTaskScheduler.execute_tasks
          ⟨[⟨0, "f", 1, 1, true⟩, ⟨1, "g", 2, 2, false⟩], [("f", 0), ("g", 1)],
            [("f", true), ("g", true)], [(7, ["f", "g"])], false, 2⟩
          none 1 (Function.const Nat false) (Function.const Nat false) 3).2.1.map
        (List.map Prod.fst) ∧
    (BrowserTaskScheduler.execute_tasks
        (BrowserTaskScheduler.clearFails
          ⟨[⟨0, "f", 1, 1, true⟩, ⟨1, "g", 2, 2, false⟩], [("f", 0), ("g", 1)],
            [("f", true), ("g", true)], [(7, ["f", "g"])], false, 2⟩)
        none 1 (Function.const Nat false) (Function.const Nat false) 3).1 =
      BrowserTaskScheduler.clearFails
        (BrowserTaskScheduler.execute_tasks
            ⟨[⟨0, "f", 1, 1, true⟩, ⟨1, "g", 2, 2, false⟩], [("f", 0), ("g", 1)],
              [("f", true), ("g", true)], [(7, ["f", "g"])], false, 2⟩
            none 1 (Function.const Nat false) (Function.const Nat false) 3).1 :=
  C2_fault_containment
    ⟨[⟨0, "f", 1, 1, true⟩, ⟨1, "g", 2, 2, false⟩], [("f", 0), ("g", 1)],
      [("f", true), ("g", true)], [(7, ["f", "g"])], false, 2⟩
    none 1 (Function.const Nat false) (Function.const Nat false) 3 (by decide)

end SeleniumTabs

namespace SeleniumTabs

/-! ## Claim C7: discovering the new handle in `get_blank_tab` -/

/-- C7 (refuted, "most recently inserted" conjunct).  With live handle set
`[1]` before and `[1, 2, 3]` after the blank-window request, both new
handles `2` and `3` appeared; `[2, 3]` is an admissible enumeration of the
Python `set` difference (set iteration order is unspecified, any permutation
of the diff can occur).  The code takes `list(new_window)[0]` and selects
`2` — but the most recently inserted new handle is `3`.  So `openNewTab`
does not select the most recently inserted handle. -/
theorem C7_counterexample :
    ([2, 3] : List Nat).Perm (TabManager.newHandles [1] [1, 2, 3]) ∧
    TabManager.get_blank_tab ⟨⟨[1], some 1⟩, [(1, ⟨none, true⟩)]⟩ [1, 2, 3]
        [2, 3] true =
      .ok (⟨⟨[1, 2, 3], some 2⟩, [(1, ⟨none, true⟩), (2, ⟨none, true⟩)]⟩, 2) ∧
    (TabManager.newHandles [1] [1, 2, 3]).getLast? = some 3 ∧
    (2 : Nat) ≠ 3 :=
  ⟨List.Perm.refl _, rfl, by decide, by decide⟩

/-- C7 (amended).  Under any admissible enumeration of the set difference:
when the blank-window request yields zero new handles, `get_blank_tab` (and
hence `open_new_tab`) fails with `SeleniumOpenTabException` (the spec's
`TabOpenError`); when it yields one or more, the returned handle is one of
the new handles (the first of the arbitrary-order set enumeration, not
necessarily the most recently inserted) and is registered in the registry. -/
theorem C7_open_new_handle_amended (s : BState) (afterHandles enum : List Nat)
    (fs : Bool) (url : String) (loadOk : Bool)
    (hperm : enum.Perm (TabManager.newHandles s.driver.handles afterHandles)) :
    (TabManager.newHandles s.driver.handles afterHandles = [] →
      TabManager.get_blank_tab s afterHandles enum fs = .error .tabOpen ∧
      TabManager.open_new_tab s afterHandles enum url fs loadOk =
        .error .tabOpen) ∧
    (∀ s' nw, TabManager.get_blank_tab s afterHandles enum fs = .ok (s', nw) →
      nw ∈ TabManager.newHandles s.driver.handles afterHandles ∧
      TabManager.exist s'.tabs nw = true) := by
  constructor
  · intro hnil
    rw [hnil] at hperm
    have henum : enum = [] := List.Perm.eq_nil hperm
    subst henum
    exact ⟨rfl, rfl⟩
  · intro s' nw hok
    cases henum : enum with
    | nil =>
      rw [henum] at hok
      simp [TabManager.get_blank_tab] at hok
    | cons nw' t =>
      rw [henum] at hok
      unfold TabManager.get_blank_tab at hok
      simp only [switchEv, Tab.switch, Tab.is_active, beq_self_eq_true,
        if_true, Except.ok.injEq, Prod.mk.injEq] at hok
      obtain ⟨hs', hnw⟩ := hok
      subst hnw
      constructor
      · exact hperm.subset (by rw [henum]; exact List.mem_cons_self _ _)
      · rw [← hs']
        show TabManager.exist (TabManager.create s.tabs nw' fs).1 nw' = true
        unfold TabManager.create TabManager.add
        exact exist_odUpdate_self s.tabs nw' _

/-- Witness for amended C7: one new handle `2` appears; it is selected and
registered. -/
theorem C7_open_new_handle_amended_witness :
    (2 : Nat) ∈ TabManager.newHandles [1] [1, 2] ∧
    TabManager.exist [(1, (⟨none, true⟩ : TabInfo)), (2, ⟨none, true⟩)] 2 =
      true :=
  (C7_open_new_handle_amended ⟨⟨[1], some 1⟩, [(1, ⟨none, true⟩)]⟩ [1, 2] [2]
      true ("u") true (List.Perm.refl _)).2
    ⟨⟨[1, 2], some 2⟩, [(1, ⟨none, true⟩), (2, ⟨none, true⟩)]⟩ 2 rfl

end SeleniumTabs

namespace SeleniumTabs

/-! ## Claim C1: ordering of physical close vs. registry removal -/

theorem switchEv_ok (d : Driver) (h : Nat) (d' : Driver) (evs : List Ev)
    (hok : switchEv d h = .ok (d', evs)) :
    d'.current = some h ∧ d'.handles = d.handles ∧
      ∀ e ∈ evs, ∃ x, e = Ev.focus x := by
  unfold switchEv Tab.switch at hok
  by_cases ha : Tab.is_active d h = true
  · rw [if_pos ha] at hok
    simp only [Except.ok.injEq, Prod.mk.injEq] at hok
    obtain ⟨hd, hevs⟩ := hok
    subst hd
    subst hevs
    exact ⟨is_active_current d h ha, rfl, by simp⟩
  · rw [if_neg ha] at hok
    by_cases hl : Tab.is_alive d h = true
    · rw [if_neg (by simp [hl])] at hok
      simp only [Except.ok.injEq, Prod.mk.injEq] at hok
      obtain ⟨hd, hevs⟩ := hok
      subst hd
      subst hevs
      refine ⟨rfl, rfl, ?_⟩
      intro e he
      rw [List.mem_singleton] at he
      exact ⟨h, he⟩
    · rw [if_pos (by simp [Bool.not_eq_true] at hl ⊢; exact hl)] at hok
      cases hok

theorem switch_to_last_tab_focus (d : Driver) (m : Registry) :
    ∀ e ∈ (TabManager.switch_to_last_tab d m).2.1, ∃ x, e = Ev.focus x := by
  unfold TabManager.switch_to_last_tab
  split
  · split
    · split
      · rename_i d' evs heq
        intro e he
        exact (switchEv_ok _ _ _ _ heq).2.2 e (by simpa using he)
      · simp
    · simp
  · simp

theorem filter_not_focus_nil (l : List Ev)
    (hf : ∀ e ∈ l, ∃ x, e = Ev.focus x) :
    l.filter (fun e => !(Ev.isFocus e)) = [] := by
  induction l with
  | nil => rfl
  | cons e t ih =>
    obtain ⟨x, hx⟩ := hf e (List.mem_cons_self _ _)
    subst hx
    rw [List.filter_cons_of_neg (by simp [Ev.isFocus])]
    exact ih (fun e he => hf e (List.mem_cons_of_mem _ he))

theorem remove_tab_events (s : BState) (h : Nat) (s' : BState) (evs : List Ev)
    (hok : Browser._remove_tab s h = .ok (s', evs)) :
    ∃ l r, evs = l ++ Ev.removeEntry h :: Ev.physClose h :: r ∧
      (∀ e ∈ l, ∃ x, e = Ev.focus x) ∧ (∀ e ∈ r, ∃ x, e = Ev.focus x) ∧
      s'.tabs = TabManager.remove s.tabs h := by
  unfold Browser._remove_tab at hok
  by_cases hal : Tab.is_alive s.driver h = true
  case neg => rw [if_pos (by simp [Bool.not_eq_true] at hal ⊢; exact hal)] at hok; cases hok
  rw [if_neg (by simp [hal])] at hok
  by_cases hex : TabManager.exist s.tabs h = true
  case neg => rw [if_pos (by simp [Bool.not_eq_true] at hex ⊢; exact hex)] at hok; cases hok
  rw [if_neg (by simp [hex])] at hok
  cases hsw : switchEv s.driver h with
  | error e => rw [hsw] at hok; cases hok
  | ok pr =>
    obtain ⟨d1, e1⟩ := pr
    rw [hsw] at hok
    obtain ⟨hc1, hh1, hf1⟩ := switchEv_ok _ _ _ _ hsw
    simp only at hok
    unfold close_driver at hok
    rw [hc1] at hok
    simp only at hok
    have hal2 : Tab.is_alive ⟨d1.handles.filter (fun x => x != h), none⟩ h = false := by
      unfold Tab.is_alive
      exact contains_filter_ne d1.handles h
    rw [if_neg (by simp [hal2])] at hok
    rw [if_neg (by simp [exist_remove s.tabs h])] at hok
    split at hok
    · split at hok
      · cases hok
      · rename_i d3 e3 hsw2
        obtain ⟨_, _, hf3⟩ := switchEv_ok _ _ _ _ hsw2
        simp only [Except.ok.injEq, Prod.mk.injEq] at hok
        obtain ⟨hs', hevs⟩ := hok
        refine ⟨e1, e3, ?_, hf1, hf3, ?_⟩
        · rw [← hevs]; simp
        · rw [← hs']
    · simp only [Except.ok.injEq, Prod.mk.injEq] at hok
      obtain ⟨hs', hevs⟩ := hok
      refine ⟨e1, [], ?_, hf1, by simp, ?_⟩
      · rw [← hevs]; simp
      · rw [← hs']

/-- C1 (refuted).  A browser with windows `[1, 2]` (window `2` focused and
both registered): `closeTab` on tab `2` succeeds, and its event trace is
`[removeEntry 2, physClose 2, focus 1]` — the bookkeeping entry is removed
*before* the window is physically closed (its index in the trace is
smaller), so at the moment the physical close call is issued the registry no
longer contains the handle, contradicting the claimed ordering. -/
theorem C1_counterexample :
    Browser.close_tab ⟨⟨[1, 2], some 2⟩, [(1, ⟨none, true⟩), (2, ⟨none, true⟩)]⟩
        2 =
      .ok (⟨⟨[1], some 1⟩, [(1, ⟨none, true⟩)]⟩,
        [Ev.removeEntry 2, Ev.physClose 2, Ev.focus 1]) ∧
    List.indexOf (Ev.removeEntry 2)
        [Ev.removeEntry 2, Ev.physClose 2, Ev.focus 1] <
      List.indexOf (Ev.physClose 2)
        [Ev.removeEntry 2, Ev.physClose 2, Ev.focus 1] :=
  ⟨rfl, by decide⟩

/-- C1 (amended).  In every successful `closeTab(tab)` execution the order
is the reverse of the claimed one: the registry entry is removed strictly
*before* the physical close — the non-focus events of the trace, in order,
are exactly `removeEntry h` and then `physClose h` — and consequently at the
moment the physical close is issued the registry (already equal to its final
value `remove s.tabs h`) no longer contains the tab's handle. -/
theorem C1_close_order_amended (s : BState) (h : Nat) (s' : BState)
    (evs : List Ev) (hok : Browser.close_tab s h = .ok (s', evs)) :
    nonFocusEvents evs = [Ev.removeEntry h, Ev.physClose h] ∧
    s'.tabs = TabManager.remove s.tabs h ∧
    TabManager.exist (TabManager.remove s.tabs h) h = false := by
  unfold Browser.close_tab at hok
  by_cases hex : TabManager.exist s.tabs h = true
  case neg => rw [if_neg hex] at hok; cases hok
  rw [if_pos hex] at hok
  cases hsw : switchEv s.driver h with
  | error e => rw [hsw] at hok; cases hok
  | ok pr =>
    obtain ⟨d1, e1⟩ := pr
    rw [hsw] at hok
    obtain ⟨_, _, hf1⟩ := switchEv_ok _ _ _ _ hsw
    simp only at hok
    cases hrm : Browser._remove_tab ⟨d1, s.tabs⟩ h with
    | error e => rw [hrm] at hok; cases hok
    | ok pr2 =>
      obtain ⟨s2, e2⟩ := pr2
      rw [hrm] at hok
      simp only at hok
      obtain ⟨l, r, hevs2, hl, hr, htabs⟩ := remove_tab_events _ _ _ _ hrm
      simp only [Except.ok.injEq, Prod.mk.injEq] at hok
      obtain ⟨hs', hevs⟩ := hok
      have h1 := filter_not_focus_nil e1 hf1
      have h2 := filter_not_focus_nil l hl
      have h3 := filter_not_focus_nil r hr
      have h4 := filter_not_focus_nil _
        (switch_to_last_tab_focus s2.driver s2.tabs)
      refine ⟨?_, ?_, exist_remove s.tabs h⟩
      · unfold nonFocusEvents
        rw [← hevs, hevs2]
        simp only [List.filter_append, h1, h2, h3, h4, List.nil_append,
          List.append_nil]
        rw [List.filter_cons_of_pos (by simp [Ev.isFocus]),
          List.filter_cons_of_pos (by simp [Ev.isFocus]), h3]
      · rw [← hs']
        exact htabs

/-- Witness for amended C1 at the counterexample's input: the non-focus
events of the trace are `removeEntry 2` then `physClose 2`, and the final
registry is the removal result, which no longer contains `2`. -/
theorem C1_close_order_amended_witness :
    nonFocusEvents [Ev.removeEntry 2, Ev.physClose 2, Ev.focus 1] =
      [Ev.removeEntry 2, Ev.physClose 2] ∧
    (⟨⟨[1], some 1⟩, [(1, ⟨none, true⟩)]⟩ : BState).tabs =
      TabManager.remove [(1, ⟨none, true⟩), (2, ⟨none, true⟩)] 2 ∧
    TabManager.exist
      (TabManager.remove [(1, ⟨none, true⟩), (2, ⟨none, true⟩)] 2) 2 = false :=
  C1_close_order_amended
    ⟨⟨[1, 2], some 2⟩, [(1, ⟨none, true⟩), (2, ⟨none, true⟩)]⟩ 2
    ⟨⟨[1], some 1⟩, [(1, ⟨none, true⟩)]⟩
    [Ev.removeEntry 2, Ev.physClose 2, Ev.focus 1] rfl

end SeleniumTabs
